import Mathlib

/-!
Shallow embedding of the NANDA reputation scoring core
(`src/reputation/utils/algorithm.ts`, `src/reputation/utils/storage.ts`,
`src/reputation/types/types.ts`).

JavaScript numbers are modelled as exact rationals `ℚ`; the documented
integer counters (`rating_count`, `total_requests`, `unique_clients`,
`longevity_days`, …, all documented as int ≥ 0 in the data model) are modelled as `ℕ`.
Optional fields of the TypeScript interfaces become `Option`.  A JavaScript
division whose denominator is zero produces `NaN`; wherever that can reach an
output it is modelled explicitly (`normalizeScore` returns `Option ℚ`, `none`
for the `NaN` case) or excluded by the positivity hypothesis the claim
supplies.  `Math.round` rounds half-way cases up, exactly like Mathlib's
`round` (`round x = ⌊x + 1/2⌋`).  `Math.pow(0.5, e)` for a real exponent is
`Real.rpow`.
-/

namespace NandaReputation

/-- Field `performanceMetrics` of `IReputationDataComponents` (types.ts). -/
structure PerformanceMetrics where
  uptime_percentage : Option ℚ
  avg_response_time_ms : Option ℚ
  error_rate : Option ℚ
  successful_transactions : Option ℕ
deriving DecidableEq

/-- Field `verificationDetails` of `IReputationDataComponents` (types.ts). -/
structure VerificationDetails where
  level : Option String
  verified_at : Option String
  methods : Option (List String)
deriving DecidableEq

/-- Field `feedbackMetrics` of `IReputationDataComponents` (types.ts). -/
structure FeedbackMetrics where
  average_rating : Option ℚ
  rating_count : Option ℕ
  rating_distribution : Option (List ℕ)
  review_count : Option ℕ
deriving DecidableEq

/-- Field `usageMetrics` of `IReputationDataComponents` (types.ts). -/
structure UsageMetrics where
  total_requests : Option ℕ
  unique_clients : Option ℕ
  longevity_days : Option ℕ
  consistency_score : Option ℚ
deriving DecidableEq

/-- Interface `IReputationDataComponents` (types.ts): the sparse metrics bundle. -/
structure ReputationDataComponents where
  performanceMetrics : Option PerformanceMetrics
  verificationDetails : Option VerificationDetails
  feedbackMetrics : Option FeedbackMetrics
  usageMetrics : Option UsageMetrics
deriving DecidableEq

/-- The bundle with every metric category absent. -/
def emptyComponents : ReputationDataComponents :=
  { performanceMetrics := none
    verificationDetails := none
    feedbackMetrics := none
    usageMetrics := none }

/-- Shape of the `categories` record produced by the weighted algorithm
(`Math.round`ed, hence integers). -/
structure CategoryScores where
  performance : ℤ
  verification : ℤ
  feedback : ℤ
  usage : ℤ
deriving DecidableEq

/-- The five confidence factors filled in by `calculateConfidence`. -/
structure ConfidenceFactors where
  sample_size : ℚ
  consistency : ℚ
  diversity : ℚ
  recency : ℚ
  verification_level : ℚ
deriving DecidableEq

/-- Result of `calculateConfidence`: rounded overall level plus factors. -/
structure Confidence where
  level : ℤ
  factors : ConfidenceFactors
deriving DecidableEq

/-- Interface `IReputationScore` as produced by the weighted algorithm (every optional
field is populated by `calculateScore`, so they are total here). -/
structure ReputationScore where
  serverId : String
  overallScore : ℤ
  categories : CategoryScores
  confidence : Confidence
  lastUpdated : String
  dataPoints : ℕ
  algorithm : String
deriving DecidableEq

/-- Shape of the `config` argument of `calculateConfidence` (algorithm.ts). -/
structure ConfidenceConfig where
  minReviews : ℚ
  idealReviews : ℚ
  minAge : ℚ
  idealAge : ℚ
  verificationImportance : ℚ
deriving DecidableEq

/-- Shape of the `weights` field of the `createWeightedAlgorithm` config. -/
structure Weights where
  performance : ℚ
  verification : ℚ
  feedback : ℚ
  usage : ℚ
deriving DecidableEq

/-- The argument of `createWeightedAlgorithm`. -/
structure WeightedAlgorithmConfig where
  weights : Weights
  timeDecayDays : ℚ
  minimumReviews : ℚ
deriving DecidableEq

/-- Embedding of `calculatePerformanceScore` (algorithm.ts).  `metrics.uptime_percentage
|| 0` maps an absent field to `0` and keeps present values (a present `0` is
falsy in JS and yields `0` as well, which coincides with `Option.getD 0`).
`metrics.avg_response_time_ms ? … : 50` is a truthiness test: absent or zero
response time yields the 50-point default.  `metrics.error_rate !==
undefined` is a presence test, so a present `0` error rate scores 100. -/
def calculatePerformanceScore (components : ReputationDataComponents) : ℚ :=
  match components.performanceMetrics with
  | none => 50
  | some metrics =>
    let uptimeScore : ℚ := metrics.uptime_percentage.getD 0
    let responseTimeScore : ℚ :=
      match metrics.avg_response_time_ms with
      | some rt => if rt = 0 then 50 else max 0 (100 - rt / 10)
      | none => 50
    let errorRateScore : ℚ :=
      match metrics.error_rate with
      | some er => max 0 (100 - er * 100)
      | none => 50
    uptimeScore * 0.5 + responseTimeScore * 0.3 + errorRateScore * 0.2

/-- The `switch (level)` mapping shared by `calculateVerificationScore` and
`calculateConfidence` (algorithm.ts). -/
def verificationLevelFactor (level : String) : ℚ :=
  match level with
  | "gold" => 100
  | "silver" => 75
  | "bronze" => 50
  | _ => 0

/-- Embedding of `calculateVerificationScore` (algorithm.ts). -/
def calculateVerificationScore (components : ReputationDataComponents) : ℚ :=
  match components.verificationDetails with
  | none => 0
  | some details => verificationLevelFactor (details.level.getD ("none"))

/-- Embedding of `calculateFeedbackScore` (algorithm.ts).  `!metrics.average_rating` is a
truthiness test, so a present rating of `0` falls back to 50. -/
def calculateFeedbackScore (components : ReputationDataComponents) : ℚ :=
  match components.feedbackMetrics with
  | none => 50
  | some metrics =>
    match metrics.average_rating with
    | none => 50
    | some r => if r = 0 then 50 else (r - 1) / 4 * 100

/-- Embedding of `calculateUsageScore` (algorithm.ts).  Each sub-metric is guarded by a
truthiness test and contributes `0` when absent or zero. -/
def calculateUsageScore (components : ReputationDataComponents) : ℚ :=
  match components.usageMetrics with
  | none => 50
  | some metrics =>
    let requestScore : ℚ :=
      match metrics.total_requests with
      | some tr => if tr = 0 then 0 else min 100 ((tr : ℚ) / 1000 * 100)
      | none => 0
    let diversityScore : ℚ :=
      match metrics.unique_clients with
      | some uc => if uc = 0 then 0 else min 100 ((uc : ℚ) / 100 * 100)
      | none => 0
    let longevityScore : ℚ :=
      match metrics.longevity_days with
      | some ld => if ld = 0 then 0 else min 100 ((ld : ℚ) / 30 * 100)
      | none => 0
    requestScore * 0.3 + diversityScore * 0.4 + longevityScore * 0.3

/-- Embedding of `calculateConfidence` (algorithm.ts).  The factors are assembled in
insertion order and blended by the `Object.entries` fold that accumulates
`overallConfidence` and `weightSum`; the fold is translated as a `List.foldl`
over the five `(value, weight)` entries in that same order. -/
def calculateConfidence (dataComponents : ReputationDataComponents)
    (config : ConfidenceConfig) : Confidence :=
  let reviewCount : ℚ :=
    ((dataComponents.feedbackMetrics.bind FeedbackMetrics.rating_count).getD 0 : ℕ)
  let sample_size : ℚ := min 100 (reviewCount / config.idealReviews * 100)
  let consistency : ℚ := 70
  let diversity : ℚ := 60
  let recency : ℚ := 80
  let verification_level : ℚ :=
    verificationLevelFactor
      ((dataComponents.verificationDetails.bind VerificationDetails.level).getD ("none"))
  let entries : List (ℚ × ℚ) :=
    [(sample_size, 0.3), (consistency, 0.2), (diversity, 0.1),
     (recency, 0.2), (verification_level, 0.2)]
  let acc : ℚ × ℚ :=
    entries.foldl (fun a p => (a.1 + p.1 * p.2, a.2 + p.2)) (0, 0)
  let level : ℚ := if 0 < acc.2 then acc.1 / acc.2 else 0
  { level := round level
    factors :=
      { sample_size := sample_size
        consistency := consistency
        diversity := diversity
        recency := recency
        verification_level := verification_level } }

/-- Embedding of `calculateScore` of the algorithm returned by `createWeightedAlgorithm`
(algorithm.ts).  `new Date().toISOString()` is passed in as `now`. -/
def calculateScore (config : WeightedAlgorithmConfig) (serverId : String)
    (components : ReputationDataComponents) (now : String) : ReputationScore :=
  let performanceScore := calculatePerformanceScore components
  let verificationScore := calculateVerificationScore components
  let feedbackScore := calculateFeedbackScore components
  let usageScore := calculateUsageScore components
  let weightedScore : ℚ :=
    performanceScore * config.weights.performance +
    verificationScore * config.weights.verification +
    feedbackScore * config.weights.feedback +
    usageScore * config.weights.usage
  let normalizedScore : ℚ := min 100 (max 0 weightedScore)
  let confidence := calculateConfidence components
    { minReviews := config.minimumReviews
      idealReviews := config.minimumReviews * 5
      minAge := 7
      idealAge := 30
      verificationImportance := 0.2 }
  { serverId := serverId
    overallScore := round normalizedScore
    categories :=
      { performance := round performanceScore
        verification := round verificationScore
        feedback := round feedbackScore
        usage := round usageScore }
    confidence := confidence
    lastUpdated := now
    dataPoints := (components.feedbackMetrics.bind FeedbackMetrics.rating_count).getD 0
    algorithm := "weighted-score-v1" }

/-- Milliseconds in a day, the source's `1000 * 60 * 60 * 24`. -/
def msPerDay : ℚ := 1000 * 60 * 60 * 24

/-- Embedding of `applyTimeDecay` (algorithm.ts): `value * Math.pow(0.5, ageDays /
halfLifeDays)` where `ageDays = ageMs / (1000*60*60*24)` and `ageMs = now -
timestamp` is supplied directly.  The real-exponent power is `Real.rpow`
(hence `noncomputable`); faithful for `halfLifeDays ≠ 0` (at `halfLifeDays =
0` the JS division produces an infinity, outside this model). -/
noncomputable def applyTimeDecay (value : ℚ) (ageMs : ℚ) (halfLifeDays : ℚ) : ℝ :=
  let ageDays : ℚ := ageMs / msPerDay
  (value : ℝ) * (0.5 : ℝ) ^ ((ageDays / halfLifeDays : ℚ) : ℝ)

/-- Embedding of `normalizeScore` (algorithm.ts): clamp to `[min, max]`, then rescale to
`[0, 100]`.  When `max = min` the source divides `0` by `0`, producing `NaN`;
that case is `none` here, every other input is `some` of the source value. -/
def normalizeScore (value lowBound highBound : ℚ) : Option ℚ :=
  let clampedValue : ℚ := max lowBound (min highBound value)
  if highBound - lowBound = 0 then none
  else some ((clampedValue - lowBound) / (highBound - lowBound) * 100)

/-- The mean computed inside `detectOutliers`: `reduce((s, v) => s + v, 0) /
values.length`, i.e. the population mean (divide by `N`). -/
def popMean (values : List ℚ) : ℚ :=
  values.sum / (values.length : ℚ)

/-- The variance computed inside `detectOutliers`: mean of squared
differences, dividing by `N` (population variance, not `N - 1`). -/
def popVariance (values : List ℚ) : ℚ :=
  ((values.map fun val => (val - popMean values) ^ 2).sum) / (values.length : ℚ)

/-- Decides the source comparison `Math.abs((val - mean) / stdDev) >
zScoreThreshold` with `stdDev = Math.sqrt(variance)`, over exact rationals.
For `variance > 0` the comparison `|d| / √variance > z` holds iff `z < 0` or
`z² · variance < d²`.  For `variance = 0` every difference `d` actually
reached by `detectOutliers` is `0` and the source compares `NaN >
zScoreThreshold`, which is false. -/
def zScoreAbove (d variance z : ℚ) : Bool :=
  decide (0 < variance) && (decide (z < 0) || decide (z * z * variance < d * d))

/-- Embedding of `detectOutliers` (algorithm.ts): indices whose z-score exceeds the
threshold; the `forEach` over `(val, index)` is translated as a filter over
the index range. -/
def detectOutliers (values : List ℚ) (zScoreThreshold : ℚ) : List ℕ :=
  if values.length < 2 then []
  else
    (List.range values.length).filter fun i =>
      zScoreAbove (values.getD i 0 - popMean values) (popVariance values) zScoreThreshold

/-- State of a `LocalReputationStorage` instance (storage.ts): the `storage`
map of current scores and the `history` map of score lists. -/
structure LocalReputationStorage where
  storage : String → Option ReputationScore
  history : String → List ReputationScore

/-- A freshly constructed `LocalReputationStorage`: both maps empty. -/
def LocalReputationStorage.empty : LocalReputationStorage :=
  { storage := fun _ => none, history := fun _ => [] }

/-- Embedding of `saveReputationScore` (storage.ts): upsert the current slot and append to
the server's history. -/
def saveReputationScore (st : LocalReputationStorage)
    (score : ReputationScore) : LocalReputationStorage :=
  { storage := fun id => if id = score.serverId then some score else st.storage id
    history := fun id =>
      if id = score.serverId then st.history score.serverId ++ [score]
      else st.history id }

/-- Embedding of `getReputationScore` (storage.ts): `this.storage.get(serverId) || null`. -/
def getReputationScore (st : LocalReputationStorage)
    (serverId : String) : Option ReputationScore :=
  st.storage serverId

/-- Embedding of `getReputationHistory` (storage.ts): `history.slice(-limit)`.  JS
`slice(-limit)` keeps the last `limit` elements for `limit > 0`; `slice(-0)`
equals `slice(0)` and returns the whole array. -/
def getReputationHistory (st : LocalReputationStorage)
    (serverId : String) (limit : ℕ) : List ReputationScore :=
  let history := st.history serverId
  if limit = 0 then history else history.drop (history.length - limit)

/-- Folds `saveReputationScore` over a list of scores, i.e. a sequence of
`saveReputationScore` calls in order. -/
def saveAll (st : LocalReputationStorage)
    (scores : List ReputationScore) : LocalReputationStorage :=
  scores.foldl saveReputationScore st

end NandaReputation

namespace NandaReputation

/-! Helper lemmas. -/

/-- Rounding `round q = ⌊q + 1/2⌋` is at least `z` whenever `q` is. -/
lemma le_round_of_le {z : ℤ} {q : ℚ} (h : (z : ℚ) ≤ q) : z ≤ round q := by
  rw [round_eq]
  exact Int.le_floor.mpr (by linarith)

/-- Rounding `round q = ⌊q + 1/2⌋` is at most `z` whenever `q` is. -/
lemma round_le_of_le {z : ℤ} {q : ℚ} (h : q ≤ (z : ℚ)) : round q ≤ z := by
  rw [round_eq]
  have : (⌊q + 1 / 2⌋ : ℤ) < z + 1 := Int.floor_lt.mpr (by push_cast; linarith)
  omega

/-- Evaluates `round` on an explicit rational. -/
lemma round_eq_int {z : ℤ} {q : ℚ} (h1 : (z : ℚ) - 1 / 2 ≤ q)
    (h2 : q < (z : ℚ) + 1 / 2) : round q = z := by
  rw [round_eq, Int.floor_eq_iff]
  constructor
  · linarith
  · linarith

/-! Claim theorems. -/

/-- C10: with the performance category present, `avg_response_time_ms = 0` is
swallowed by a truthiness check and contributes the 50-point default, while a
present `error_rate = 0` passes the `!== undefined` check and contributes the
full 100; an absent uptime contributes 0 (not 50).  Concretely the input
`{uptime_percentage: u, avg_response_time_ms: 0, error_rate: 0}` scores
`0.5*u + 0.3*50 + 0.2*100`, and with uptime absent the uptime term is 0. -/
theorem calculatePerformanceScore_zero_asymmetry (u : ℚ) :
    calculatePerformanceScore
      { performanceMetrics := some
          { uptime_percentage := some u, avg_response_time_ms := some 0,
            error_rate := some 0, successful_transactions := none }
        verificationDetails := none, feedbackMetrics := none, usageMetrics := none }
      = 0.5 * u + 0.3 * 50 + 0.2 * 100 ∧
    calculatePerformanceScore
      { performanceMetrics := some
          { uptime_percentage := none, avg_response_time_ms := some 0,
            error_rate := some 0, successful_transactions := none }
        verificationDetails := none, feedbackMetrics := none, usageMetrics := none }
      = 0 + 0.3 * 50 + 0.2 * 100 := by
  constructor <;> simp [calculatePerformanceScore] <;> ring

/-- C2 (amended): the overall score of the weighted algorithm is always in
`[0, 100]` for every input bundle — the weighted sum is clamped before
rounding.  (The category sub-scores are *not* clamped, see the
counterexample.) -/
theorem calculateScore_overall_bounds (config : WeightedAlgorithmConfig)
    (serverId now : String) (components : ReputationDataComponents) :
    0 ≤ (calculateScore config serverId components now).overallScore ∧
    (calculateScore config serverId components now).overallScore ≤ 100 := by
  unfold calculateScore
  refine ⟨le_round_of_le ?_, round_le_of_le ?_⟩
  · push_cast
    exact le_min (by norm_num) (le_max_left _ _)
  · push_cast
    exact min_le_left _ _

/-- C2 (counterexample): category sub-scores are not clamped to `[0, 100]`.
A bundle whose `uptime_percentage` is 300 (out of documented range) produces
`categories.performance = 175`, violating the claimed invariant. -/
theorem calculateScore_category_unclamped :
    (calculateScore ⟨⟨0.25, 0.25, 0.25, 0.25⟩, 30, 5⟩ "srv"
        { performanceMetrics := some
            { uptime_percentage := some 300, avg_response_time_ms := none,
              error_rate := none, successful_transactions := none }
          verificationDetails := none, feedbackMetrics := none, usageMetrics := none }
        "t").categories.performance = 175 ∧
    ¬ (calculateScore ⟨⟨0.25, 0.25, 0.25, 0.25⟩, 30, 5⟩ "srv"
        { performanceMetrics := some
            { uptime_percentage := some 300, avg_response_time_ms := none,
              error_rate := none, successful_transactions := none }
          verificationDetails := none, feedbackMetrics := none, usageMetrics := none }
        "t").categories.performance ≤ 100 := by
  have h : (calculateScore ⟨⟨0.25, 0.25, 0.25, 0.25⟩, 30, 5⟩ "srv"
      { performanceMetrics := some
          { uptime_percentage := some 300, avg_response_time_ms := none,
            error_rate := none, successful_transactions := none }
        verificationDetails := none, feedbackMetrics := none, usageMetrics := none }
      "t").categories.performance = 175 := by
    simp only [calculateScore, calculatePerformanceScore]
    norm_num
  refine ⟨h, ?_⟩
  rw [h]
  norm_num

/-- The metrics bundle of the spec's end-to-end scenario. -/
def endToEndComponents : ReputationDataComponents :=
  { performanceMetrics := some
      { uptime_percentage := some 99.9, avg_response_time_ms := some 150,
        error_rate := some 0.01, successful_transactions := none }
    verificationDetails := some
      { level := some ("gold"), verified_at := some ("2024-01-01T00:00:00Z"),
        methods := some ["dns"] }
    feedbackMetrics := some
      { average_rating := some 4.8, rating_count := some 50,
        rating_distribution := none, review_count := none }
    usageMetrics := some
      { total_requests := some 10000, unique_clients := some 500,
        longevity_days := some 90, consistency_score := none } }

/-- C7: on the end-to-end bundle with weights `{performance: 0.4,
verification: 0.3, feedback: 0.2, usage: 0.1}`, the weighted algorithm
returns `categories.verification = 100`, `categories.feedback = 95`, and an
overall score strictly above 80 (it is 97). -/
theorem calculateScore_endToEnd (tdd mr : ℚ) (sid now : String) :
    (calculateScore ⟨⟨0.4, 0.3, 0.2, 0.1⟩, tdd, mr⟩ sid endToEndComponents now).categories.verification = 100 ∧
    (calculateScore ⟨⟨0.4, 0.3, 0.2, 0.1⟩, tdd, mr⟩ sid endToEndComponents now).categories.feedback = 95 ∧
    80 < (calculateScore ⟨⟨0.4, 0.3, 0.2, 0.1⟩, tdd, mr⟩ sid endToEndComponents now).overallScore := by
  refine ⟨?_, ?_, ?_⟩
  · simp only [calculateScore, calculateVerificationScore, verificationLevelFactor,
      endToEndComponents]
    norm_num
  · simp only [calculateScore, calculateFeedbackScore, endToEndComponents]
    norm_num
  · simp only [calculateScore, calculatePerformanceScore, calculateVerificationScore,
      calculateFeedbackScore, calculateUsageScore, verificationLevelFactor,
      endToEndComponents]
    norm_num [min_def, max_def]
    have h97 : (97 : ℤ) ≤ round ((971 : ℚ) / 10) := le_round_of_le (by norm_num)
    omega


/-- The bounds of the verification-level switch: every branch is in `[0, 100]`. -/
lemma verificationLevelFactor_bounds (s : String) :
    0 ≤ verificationLevelFactor s ∧ verificationLevelFactor s ≤ 100 := by
  unfold verificationLevelFactor
  split <;> norm_num

/-- The entries fold of `calculateConfidence` collapses to the direct weighted
average: the weights sum to 1, so the rounded level is the weighted sum of the
five factors. -/
lemma calculateConfidence_level_eq (dc : ReputationDataComponents)
    (cfg : ConfidenceConfig) :
    (calculateConfidence dc cfg).level =
      round ((calculateConfidence dc cfg).factors.sample_size * 0.3 + 70 * 0.2 +
        60 * 0.1 + 80 * 0.2 +
        (calculateConfidence dc cfg).factors.verification_level * 0.2) := by
  unfold calculateConfidence
  simp only [List.foldl_cons, List.foldl_nil]
  norm_num

/-- The sample-size factor of `calculateConfidence`, definitionally. -/
lemma calculateConfidence_sample_size_eq (dc : ReputationDataComponents)
    (cfg : ConfidenceConfig) :
    (calculateConfidence dc cfg).factors.sample_size =
      min 100 ((((dc.feedbackMetrics.bind FeedbackMetrics.rating_count).getD 0 : ℕ) : ℚ) /
        cfg.idealReviews * 100) := rfl

/-- The verification-level factor of `calculateConfidence`, definitionally. -/
lemma calculateConfidence_verification_eq (dc : ReputationDataComponents)
    (cfg : ConfidenceConfig) :
    (calculateConfidence dc cfg).factors.verification_level =
      verificationLevelFactor
        ((dc.verificationDetails.bind VerificationDetails.level).getD ("none")) := rfl

/-- Evaluating the verification switch on the `"none"` default. -/
lemma verificationLevelFactor_none_eq : verificationLevelFactor ("none") = 0 := rfl

/-- C9: the placeholder consistency (70), diversity (60) and recency (80)
factors contribute a fixed `0.2*70 + 0.1*60 + 0.2*80 = 36` points, so for any
bundle (and any config with positive `idealReviews`) the confidence level lies
in `[36, 100]` — never near zero, even with no data at all. -/
theorem calculateConfidence_level_bounds (dc : ReputationDataComponents)
    (cfg : ConfidenceConfig) (hcfg : 0 < cfg.idealReviews) :
    (calculateConfidence dc cfg).factors.consistency = 70 ∧
    (calculateConfidence dc cfg).factors.diversity = 60 ∧
    (calculateConfidence dc cfg).factors.recency = 80 ∧
    36 ≤ (calculateConfidence dc cfg).level ∧
    (calculateConfidence dc cfg).level ≤ 100 := by
  have hss0 : (0 : ℚ) ≤ (calculateConfidence dc cfg).factors.sample_size := by
    rw [calculateConfidence_sample_size_eq]
    exact le_min (by norm_num) (by positivity)
  have hss1 : (calculateConfidence dc cfg).factors.sample_size ≤ 100 := by
    rw [calculateConfidence_sample_size_eq]
    exact min_le_left _ _
  have hvl := verificationLevelFactor_bounds
    ((dc.verificationDetails.bind VerificationDetails.level).getD ("none"))
  rw [← calculateConfidence_verification_eq dc cfg] at hvl
  refine ⟨rfl, rfl, rfl, ?_, ?_⟩
  · rw [calculateConfidence_level_eq]
    exact le_round_of_le (by push_cast; linarith [hss0, hvl.1])
  · rw [calculateConfidence_level_eq]
    exact round_le_of_le (by push_cast; linarith [hss1, hvl.2])

/-- C9 witness at the empty bundle and the config `createWeightedAlgorithm`
derives from `minimumReviews = 5`. -/
theorem calculateConfidence_level_bounds_concrete :
    (0 : ℚ) < 25 ∧
    ((calculateConfidence emptyComponents ⟨5, 25, 7, 30, 0.2⟩).factors.consistency = 70 ∧
     (calculateConfidence emptyComponents ⟨5, 25, 7, 30, 0.2⟩).factors.diversity = 60 ∧
     (calculateConfidence emptyComponents ⟨5, 25, 7, 30, 0.2⟩).factors.recency = 80 ∧
     36 ≤ (calculateConfidence emptyComponents ⟨5, 25, 7, 30, 0.2⟩).level ∧
     (calculateConfidence emptyComponents ⟨5, 25, 7, 30, 0.2⟩).level ≤ 100) :=
  ⟨by norm_num, calculateConfidence_level_bounds emptyComponents ⟨5, 25, 7, 30, 0.2⟩ (by norm_num)⟩


/-- C1 (amended): on a bundle with every category absent, the weighted
algorithm never fails and returns a full well-formed score with
`categories = {performance: 50, verification: 0, feedback: 50, usage: 50}`,
`dataPoints = 0`, `overallScore` the weighted blend of those defaults clamped
to `[0, 100]` and rounded, and `confidence.level = 36` — the minimum
achievable value (the placeholder factors keep it far from zero). -/
theorem calculateScore_emptyBundle_defaults (w : Weights) (tdd mr : ℚ)
    (sid now : String) (s : ReputationScore) (hmr : 0 < mr)
    (hs : s = calculateScore ⟨w, tdd, mr⟩ sid emptyComponents now) :
    s.categories.performance = 50 ∧ s.categories.verification = 0 ∧
    s.categories.feedback = 50 ∧ s.categories.usage = 50 ∧
    s.dataPoints = 0 ∧
    s.overallScore = round (min 100 (max 0
      (50 * w.performance + 0 * w.verification + 50 * w.feedback + 50 * w.usage))) ∧
    s.confidence.level = 36 ∧
    s.serverId = sid ∧ s.lastUpdated = now ∧ s.algorithm = "weighted-score-v1" := by
  subst hs
  refine ⟨?_, ?_, ?_, ?_, rfl, ?_, ?_, rfl, rfl, rfl⟩
  · simp only [calculateScore, calculatePerformanceScore, emptyComponents]
    norm_num
  · simp only [calculateScore, calculateVerificationScore, emptyComponents]
    norm_num
  · simp only [calculateScore, calculateFeedbackScore, emptyComponents]
    norm_num
  · simp only [calculateScore, calculateUsageScore, emptyComponents]
    norm_num
  · simp only [calculateScore, calculatePerformanceScore, calculateVerificationScore,
      calculateFeedbackScore, calculateUsageScore, emptyComponents]
  · simp only [calculateScore]
    rw [calculateConfidence_level_eq]
    rw [calculateConfidence_sample_size_eq, calculateConfidence_verification_eq]
    simp only [emptyComponents, Option.none_bind, Option.getD_none,
      verificationLevelFactor_none_eq]
    norm_num

/-- C1 (counterexample): with all categories absent the confidence level is
36, which is the floor but is not near zero (it is not even ≤ 10). -/
theorem calculateScore_emptyBundle_level_not_near_zero :
    (calculateScore ⟨⟨0.25, 0.25, 0.25, 0.25⟩, 30, 5⟩ "srv" emptyComponents
      ("t")).confidence.level = 36 ∧
    ¬ (calculateScore ⟨⟨0.25, 0.25, 0.25, 0.25⟩, 30, 5⟩ "srv" emptyComponents
      ("t")).confidence.level ≤ 10 := by
  have h : (calculateScore ⟨⟨0.25, 0.25, 0.25, 0.25⟩, 30, 5⟩ "srv" emptyComponents
      ("t")).confidence.level = 36 := by
    show (calculateConfidence emptyComponents _).level = 36
    rw [calculateConfidence_level_eq, calculateConfidence_sample_size_eq,
      calculateConfidence_verification_eq]
    simp only [emptyComponents, Option.none_bind, Option.getD_none,
      verificationLevelFactor_none_eq]
    norm_num
  exact ⟨h, by rw [h]; norm_num⟩

/-- C1 witness: the amended theorem applied at equal weights 0.25,
`timeDecayDays = 30`, `minimumReviews = 5`. -/
theorem calculateScore_emptyBundle_defaults_concrete :
    (0 : ℚ) < 5 ∧
    ((calculateScore ⟨⟨0.25, 0.25, 0.25, 0.25⟩, 30, 5⟩ "srv" emptyComponents
        "t").categories.performance = 50 ∧
     (calculateScore ⟨⟨0.25, 0.25, 0.25, 0.25⟩, 30, 5⟩ "srv" emptyComponents
        "t").categories.verification = 0 ∧
     (calculateScore ⟨⟨0.25, 0.25, 0.25, 0.25⟩, 30, 5⟩ "srv" emptyComponents
        "t").categories.feedback = 50 ∧
     (calculateScore ⟨⟨0.25, 0.25, 0.25, 0.25⟩, 30, 5⟩ "srv" emptyComponents
        "t").categories.usage = 50 ∧
     (calculateScore ⟨⟨0.25, 0.25, 0.25, 0.25⟩, 30, 5⟩ "srv" emptyComponents
        "t").dataPoints = 0 ∧
     (calculateScore ⟨⟨0.25, 0.25, 0.25, 0.25⟩, 30, 5⟩ "srv" emptyComponents
        "t").overallScore = round (min 100 (max 0
          ((50 : ℚ) * 0.25 + 0 * 0.25 + 50 * 0.25 + 50 * 0.25))) ∧
     (calculateScore ⟨⟨0.25, 0.25, 0.25, 0.25⟩, 30, 5⟩ "srv" emptyComponents
        "t").confidence.level = 36 ∧
     (calculateScore ⟨⟨0.25, 0.25, 0.25, 0.25⟩, 30, 5⟩ "srv" emptyComponents
        "t").serverId = "srv" ∧
     (calculateScore ⟨⟨0.25, 0.25, 0.25, 0.25⟩, 30, 5⟩ "srv" emptyComponents
        "t").lastUpdated = "t" ∧
     (calculateScore ⟨⟨0.25, 0.25, 0.25, 0.25⟩, 30, 5⟩ "srv" emptyComponents
        "t").algorithm = "weighted-score-v1") :=
  ⟨by norm_num,
   calculateScore_emptyBundle_defaults ⟨0.25, 0.25, 0.25, 0.25⟩ 30 5 ("srv") ("t") _
     (by norm_num) rfl⟩

/-- The components of the confidence unit test: 20 ratings, silver
verification. -/
def testComponents : ReputationDataComponents :=
  { performanceMetrics := none
    verificationDetails := some
      { level := some ("silver"), verified_at := none, methods := none }
    feedbackMetrics := some
      { average_rating := none, rating_count := some 20,
        rating_distribution := none, review_count := none }
    usageMetrics := none }

/-- C6: `calculateConfidence` sets `sample_size` to
`min(100, rating_count / idealReviews * 100)` (0 when feedback is absent),
maps verification gold→100, silver→75, bronze→50, otherwise→0, and the level
is the weighted average `0.3*sample_size + 0.2*consistency + 0.1*diversity +
0.2*recency + 0.2*verification_level`, rounded to the nearest integer. -/
theorem calculateConfidence_spec (dc : ReputationDataComponents)
    (cfg : ConfidenceConfig) (c : Confidence) (hcfg : 0 < cfg.idealReviews)
    (hc : c = calculateConfidence dc cfg) :
    c.factors.sample_size = min 100
      ((((dc.feedbackMetrics.bind FeedbackMetrics.rating_count).getD 0 : ℕ) : ℚ) /
        cfg.idealReviews * 100) ∧
    (dc.feedbackMetrics = none → c.factors.sample_size = 0) ∧
    (dc.verificationDetails.bind VerificationDetails.level = some ("gold") →
      c.factors.verification_level = 100) ∧
    (dc.verificationDetails.bind VerificationDetails.level = some ("silver") →
      c.factors.verification_level = 75) ∧
    (dc.verificationDetails.bind VerificationDetails.level = some ("bronze") →
      c.factors.verification_level = 50) ∧
    (dc.verificationDetails.bind VerificationDetails.level ∉
        ([some ("gold"), some ("silver"), some ("bronze")] : List (Option String)) →
      c.factors.verification_level = 0) ∧
    c.level = round (0.3 * c.factors.sample_size + 0.2 * c.factors.consistency +
      0.1 * c.factors.diversity + 0.2 * c.factors.recency +
      0.2 * c.factors.verification_level) := by
  subst hc
  refine ⟨calculateConfidence_sample_size_eq dc cfg, ?_, ?_, ?_, ?_, ?_, ?_⟩
  · intro h
    rw [calculateConfidence_sample_size_eq, h]
    norm_num
  · intro h
    rw [calculateConfidence_verification_eq, h]
    rfl
  · intro h
    rw [calculateConfidence_verification_eq, h]
    rfl
  · intro h
    rw [calculateConfidence_verification_eq, h]
    rfl
  · intro h
    rw [calculateConfidence_verification_eq]
    simp only [List.mem_cons, List.mem_singleton] at h
    push_neg at h
    obtain ⟨hg, hs, hb⟩ := h
    cases hL : dc.verificationDetails.bind VerificationDetails.level with
    | none => rfl
    | some lvl =>
      rw [hL] at hg hs hb
      simp only [Option.getD_some]
      unfold verificationLevelFactor
      split
      · simp at hg
      · simp at hs
      · simp at hb
      · rfl
  · rw [calculateConfidence_level_eq]
    have hc70 : (calculateConfidence dc cfg).factors.consistency = 70 := rfl
    have hd60 : (calculateConfidence dc cfg).factors.diversity = 60 := rfl
    have hr80 : (calculateConfidence dc cfg).factors.recency = 80 := rfl
    rw [hc70, hd60, hr80]
    congr 1
    ring

/-- C6 witness: the spec test's components (20 ratings, silver verification)
with `idealReviews = 25`. -/
theorem calculateConfidence_spec_concrete :
    (0 : ℚ) < 25 ∧
    ((calculateConfidence testComponents ⟨5, 25, 7, 30, 0.2⟩).factors.sample_size =
      min 100 ((((testComponents.feedbackMetrics.bind FeedbackMetrics.rating_count).getD 0 : ℕ) : ℚ) /
        (25 : ℚ) * 100) ∧
     (testComponents.feedbackMetrics = none →
      (calculateConfidence testComponents ⟨5, 25, 7, 30, 0.2⟩).factors.sample_size = 0) ∧
     (testComponents.verificationDetails.bind VerificationDetails.level = some ("gold") →
      (calculateConfidence testComponents ⟨5, 25, 7, 30, 0.2⟩).factors.verification_level = 100) ∧
     (testComponents.verificationDetails.bind VerificationDetails.level = some ("silver") →
      (calculateConfidence testComponents ⟨5, 25, 7, 30, 0.2⟩).factors.verification_level = 75) ∧
     (testComponents.verificationDetails.bind VerificationDetails.level = some ("bronze") →
      (calculateConfidence testComponents ⟨5, 25, 7, 30, 0.2⟩).factors.verification_level = 50) ∧
     (testComponents.verificationDetails.bind VerificationDetails.level ∉
        ([some ("gold"), some ("silver"), some ("bronze")] : List (Option String)) →
      (calculateConfidence testComponents ⟨5, 25, 7, 30, 0.2⟩).factors.verification_level = 0) ∧
     (calculateConfidence testComponents ⟨5, 25, 7, 30, 0.2⟩).level =
       round (0.3 * (calculateConfidence testComponents ⟨5, 25, 7, 30, 0.2⟩).factors.sample_size +
         0.2 * (calculateConfidence testComponents ⟨5, 25, 7, 30, 0.2⟩).factors.consistency +
         0.1 * (calculateConfidence testComponents ⟨5, 25, 7, 30, 0.2⟩).factors.diversity +
         0.2 * (calculateConfidence testComponents ⟨5, 25, 7, 30, 0.2⟩).factors.recency +
         0.2 * (calculateConfidence testComponents ⟨5, 25, 7, 30, 0.2⟩).factors.verification_level)) :=
  ⟨by norm_num,
   calculateConfidence_spec testComponents ⟨5, 25, 7, 30, 0.2⟩ _ (by norm_num) rfl⟩


/-- Folding saves of scores that all carry `id` appends them, in order, to
the history slot of `id`. -/
lemma saveAll_history (L : List ReputationScore) (st : LocalReputationStorage)
    (id : String) (hL : ∀ x ∈ L, x.serverId = id) :
    (saveAll st L).history id = st.history id ++ L := by
  induction L generalizing st with
  | nil => simp [saveAll]
  | cons x xs ih =>
    have hx : x.serverId = id := hL x (List.mem_cons_self x xs)
    have hxs : ∀ y ∈ xs, y.serverId = id := fun y hy => hL y (List.mem_cons_of_mem x hy)
    show (saveAll (saveReputationScore st x) xs).history id = _
    rw [ih (saveReputationScore st x) hxs]
    simp [saveReputationScore, hx]

/-- C8: saving a score makes it immediately readable back unchanged, and a
sequence of saves for one server id (into a fresh storage) yields a history
whose last `min n limit` entries are returned by `getReputationHistory`, in
save order (oldest first): the result is the final suffix
`L.drop (L.length - limit)` of the saved list and has length `min n limit`. -/
theorem localReputationStorage_roundtrip (st : LocalReputationStorage)
    (s : ReputationScore) (L : List ReputationScore) (id : String) (limit : ℕ)
    (hlim : 0 < limit) (hL : ∀ x ∈ L, x.serverId = id) :
    getReputationScore (saveReputationScore st s) s.serverId = some s ∧
    getReputationHistory (saveAll LocalReputationStorage.empty L) id limit =
      L.drop (L.length - limit) ∧
    (getReputationHistory (saveAll LocalReputationStorage.empty L) id limit).length =
      min L.length limit := by
  have hist : getReputationHistory (saveAll LocalReputationStorage.empty L) id limit =
      L.drop (L.length - limit) := by
    unfold getReputationHistory
    rw [saveAll_history L LocalReputationStorage.empty id hL]
    simp only [LocalReputationStorage.empty, List.nil_append]
    rw [if_neg hlim.ne']
  refine ⟨?_, hist, ?_⟩
  · simp [getReputationScore, saveReputationScore]
  · rw [hist, List.length_drop]
    omega

/-- A small concrete score record used by the storage witness. -/
def sampleScore (n : ℤ) (t : String) : ReputationScore :=
  { serverId := "a"
    overallScore := n
    categories := { performance := 50, verification := 0, feedback := 50, usage := 50 }
    confidence := { level := 36, factors :=
      { sample_size := 0, consistency := 70, diversity := 60, recency := 80,
        verification_level := 0 } }
    lastUpdated := t
    dataPoints := 0
    algorithm := "weighted-score-v1" }

/-- C8 witness: three saves for server `"a"`, then `getReputationHistory`
with limit 2 returns the two most recent in order. -/
theorem localReputationStorage_roundtrip_concrete :
    0 < 2 ∧
    (∀ x ∈ [sampleScore 1 ("t1"), sampleScore 2 ("t2"), sampleScore 3 ("t3")],
      x.serverId = "a") ∧
    (getReputationScore
        (saveReputationScore LocalReputationStorage.empty (sampleScore 1 ("t1")))
        (sampleScore 1 ("t1")).serverId = some (sampleScore 1 ("t1")) ∧
     getReputationHistory
        (saveAll LocalReputationStorage.empty
          [sampleScore 1 ("t1"), sampleScore 2 ("t2"), sampleScore 3 ("t3")]) "a" 2 =
        ([sampleScore 1 ("t1"), sampleScore 2 ("t2"), sampleScore 3 ("t3")] :
          List ReputationScore).drop
          (([sampleScore 1 ("t1"), sampleScore 2 ("t2"), sampleScore 3 ("t3")] :
            List ReputationScore).length - 2) ∧
     (getReputationHistory
        (saveAll LocalReputationStorage.empty
          [sampleScore 1 ("t1"), sampleScore 2 ("t2"), sampleScore 3 ("t3")]) "a" 2).length =
        min ([sampleScore 1 ("t1"), sampleScore 2 ("t2"), sampleScore 3 ("t3")] :
          List ReputationScore).length 2) :=
  ⟨by norm_num,
   by intro x hx; fin_cases hx <;> rfl,
   localReputationStorage_roundtrip LocalReputationStorage.empty (sampleScore 1 ("t1"))
     [sampleScore 1 ("t1"), sampleScore 2 ("t2"), sampleScore 3 ("t3")] "a" 2
     (by norm_num) (by intro x hx; fin_cases hx <;> rfl)⟩


/-- The constant `msPerDay` is not zero. -/
lemma msPerDay_ne_zero : (msPerDay : ℚ) ≠ 0 := by norm_num [msPerDay]

/-- C5: for every value `v`, a value recorded exactly `n` half-lives ago
decays to exactly `v * (1/2)^n` (exact in this model; "within floating
tolerance" in JS); moreover for a positive value the decayed value strictly
decreases as the age grows.  Only the half-life positivity is a shared
hypothesis; positivity of the value conditions the monotonicity part alone,
as in the claim. -/
theorem applyTimeDecay_halfLives_and_monotone (v h : ℚ) (n : ℕ) (a1 a2 : ℚ)
    (hh : 0 < h) :
    applyTimeDecay v (n * h * msPerDay) h = (v : ℝ) * (1 / 2 : ℝ) ^ n ∧
    (0 < v → a1 < a2 →
      applyTimeDecay v (a2 * msPerDay) h < applyTimeDecay v (a1 * msPerDay) h) := by
  constructor
  · show (v : ℝ) * (0.5 : ℝ) ^ (((n * h * msPerDay / msPerDay) / h : ℚ) : ℝ) = _
    have he : ((n * h * msPerDay / msPerDay) / h : ℚ) = (n : ℚ) := by
      rw [mul_div_assoc, div_self msPerDay_ne_zero, mul_one,
        mul_div_assoc, div_self hh.ne', mul_one]
    rw [he]
    push_cast
    rw [Real.rpow_natCast]
    norm_num
  · intro hv ha
    show (v : ℝ) * (0.5 : ℝ) ^ (((a2 * msPerDay / msPerDay) / h : ℚ) : ℝ) <
      (v : ℝ) * (0.5 : ℝ) ^ (((a1 * msPerDay / msPerDay) / h : ℚ) : ℝ)
    have e1 : ((a1 * msPerDay / msPerDay) / h : ℚ) = a1 / h := by
      rw [mul_div_assoc, div_self msPerDay_ne_zero, mul_one]
    have e2 : ((a2 * msPerDay / msPerDay) / h : ℚ) = a2 / h := by
      rw [mul_div_assoc, div_self msPerDay_ne_zero, mul_one]
    rw [e1, e2]
    have hexp : ((a1 / h : ℚ) : ℝ) < ((a2 / h : ℚ) : ℝ) := by
      exact_mod_cast (div_lt_div_iff_of_pos_right hh).mpr ha
    exact mul_lt_mul_of_pos_left
      (Real.rpow_lt_rpow_of_exponent_gt (by norm_num) (by norm_num) hexp)
      (by exact_mod_cast hv)

/-- C5 witness: value 100 with a 30-day half-life halves after one half-life,
and ages of 1 vs 2 days decay strictly. -/
theorem applyTimeDecay_halfLives_and_monotone_concrete :
    (0 : ℚ) < 30 ∧
    (applyTimeDecay 100 (1 * 30 * msPerDay) 30 = (100 : ℝ) * (1 / 2 : ℝ) ^ (1 : ℕ) ∧
     ((0 : ℚ) < 100 → (1 : ℚ) < 2 →
       applyTimeDecay 100 (2 * msPerDay) 30 < applyTimeDecay 100 (1 * msPerDay) 30)) :=
  ⟨by norm_num,
   applyTimeDecay_halfLives_and_monotone 100 30 1 1 2 (by norm_num)⟩

/-- C3 (amended): neither degenerate configuration is rejected or guarded.
`applyTimeDecay` with a negative half-life happily computes
`value * 0.5^(ageDays/halfLifeDays)` — at age one day and half-life `-1` it
*doubles* the value instead of raising any validation error — and
`normalizeScore` with `min = max` divides zero by zero, producing `NaN`
(modelled as `none`), not a fixed numeric fallback. -/
theorem degenerate_inputs_unguarded :
    (∀ value lowBound : ℚ, normalizeScore value lowBound lowBound = none) ∧
    (∀ v : ℚ, applyTimeDecay v msPerDay (-1) = (v : ℝ) * 2) := by
  constructor
  · intro value lowBound
    simp [normalizeScore]
  · intro v
    show (v : ℝ) * (0.5 : ℝ) ^ (((msPerDay / msPerDay) / (-1) : ℚ) : ℝ) = _
    have he : ((msPerDay / msPerDay) / (-1) : ℚ) = -1 := by
      rw [div_self msPerDay_ne_zero]
      norm_num
    rw [he]
    have : (((-1 : ℚ)) : ℝ) = (-1 : ℝ) := by norm_num
    rw [this, Real.rpow_neg_one]
    norm_num

/-- C3 (counterexample): at age one day with half-life `-1`, `applyTimeDecay
10` returns the ordinary number 20 (no validation error is raised), and
`normalizeScore 5 3 3` is the `NaN` case (`none`), not a fixed fallback
value. -/
theorem degenerate_inputs_counterexample :
    normalizeScore 5 3 3 = none ∧ applyTimeDecay 10 msPerDay (-1) = 20 := by
  constructor
  · simp [normalizeScore]
  · show (10 : ℝ) * (0.5 : ℝ) ^ (((msPerDay / msPerDay) / (-1) : ℚ) : ℝ) = 20
    have he : ((msPerDay / msPerDay) / (-1) : ℚ) = -1 := by
      rw [div_self msPerDay_ne_zero]
      norm_num
    rw [he]
    have hc : (((-1 : ℚ)) : ℝ) = (-1 : ℝ) := by norm_num
    rw [hc, Real.rpow_neg_one]
    norm_num


/-- The population variance is a mean of squares, hence nonnegative. -/
lemma popVariance_nonneg (values : List ℚ) : 0 ≤ popVariance values := by
  unfold popVariance
  apply div_nonneg
  · apply List.sum_nonneg
    intro x hx
    simp only [List.mem_map] at hx
    obtain ⟨v, -, rfl⟩ := hx
    positivity
  · positivity

/-- Membership in `detectOutliers`, unfolded to the decidable filter. -/
lemma detectOutliers_mem (values : List ℚ) (z : ℚ) (i : ℕ) :
    i ∈ detectOutliers values z ↔
      ¬ values.length < 2 ∧ i < values.length ∧
        zScoreAbove (values.getD i 0 - popMean values) (popVariance values) z = true := by
  by_cases hlen : values.length < 2
  · rw [detectOutliers, if_pos hlen]
    simp [hlen]
  · rw [detectOutliers, if_neg hlen]
    simp only [List.mem_filter, List.mem_range, hlen, not_false_iff, true_and]

/-- The decidable comparison of `zScoreAbove` agrees with the source's
real-valued z-score test `|d| / √variance > z`, for a positive threshold. -/
lemma zScoreAbove_iff_real (d var z : ℚ) (hvar : 0 ≤ var) (hz : 0 < z) :
    zScoreAbove d var z = true ↔
      (z : ℝ) < |((d : ℚ) : ℝ)| / Real.sqrt ((var : ℚ) : ℝ) := by
  unfold zScoreAbove
  rcases lt_or_eq_of_le hvar with hpos | heq
  · have hvR : (0 : ℝ) ≤ (var : ℝ) := by exact_mod_cast hvar
    have hsq : 0 < Real.sqrt (var : ℝ) := Real.sqrt_pos.mpr (by exact_mod_cast hpos)
    have hself : Real.sqrt (var : ℝ) * Real.sqrt (var : ℝ) = (var : ℝ) :=
      Real.mul_self_sqrt hvR
    rw [lt_div_iff₀ hsq]
    simp only [Bool.and_eq_true, Bool.or_eq_true, decide_eq_true_eq]
    constructor
    · rintro ⟨-, hneg | hlt⟩
      · exact absurd hneg (not_lt.mpr hz.le)
      · have hR : (z : ℝ) * (z : ℝ) * (var : ℝ) < (d : ℝ) * (d : ℝ) := by
          exact_mod_cast hlt
        by_contra hcon
        push_neg at hcon
        have h1 : |((d : ℚ) : ℝ)| * |((d : ℚ) : ℝ)| ≤
            ((z : ℝ) * Real.sqrt (var : ℝ)) * ((z : ℝ) * Real.sqrt (var : ℝ)) :=
          mul_le_mul hcon hcon (abs_nonneg _) (by positivity)
        rw [abs_mul_abs_self] at h1
        nlinarith [hself]
    · intro hlt
      refine ⟨hpos, Or.inr ?_⟩
      have h0 : (0 : ℝ) ≤ (z : ℝ) * Real.sqrt (var : ℝ) := by positivity
      have h1 : ((z : ℝ) * Real.sqrt (var : ℝ)) * ((z : ℝ) * Real.sqrt (var : ℝ)) <
          |((d : ℚ) : ℝ)| * |((d : ℚ) : ℝ)| := mul_self_lt_mul_self h0 hlt
      rw [abs_mul_abs_self] at h1
      have h2 : (z : ℝ) * (z : ℝ) * (var : ℝ) < (d : ℝ) * (d : ℝ) := by nlinarith [hself]
      exact_mod_cast h2
  · rw [← heq]
    constructor
    · intro h
      simp at h
    · intro h
      rw [Rat.cast_zero, Real.sqrt_zero, div_zero] at h
      exact absurd h (not_lt.mpr (by exact_mod_cast hz.le))

/-- C4: `detectOutliers` returns exactly the in-range indices whose absolute
z-score `|values[i] - mean| / stdDev` exceeds the positive threshold, where
`mean` and `stdDev` are the population statistics (dividing by `N`, not
`N - 1`); lists of length 0 or 1 yield no outliers, and a zero standard
deviation (all values identical) yields no outliers rather than a division
by zero. -/
theorem detectOutliers_spec (values : List ℚ) (z : ℚ) (i : ℕ) (hz : 0 < z) :
    (i ∈ detectOutliers values z ↔
      2 ≤ values.length ∧ i < values.length ∧
        (z : ℝ) < |((values.getD i 0 - popMean values : ℚ) : ℝ)| /
          Real.sqrt ((popVariance values : ℚ) : ℝ)) ∧
    (values.length < 2 → detectOutliers values z = []) ∧
    (popVariance values = 0 → detectOutliers values z = []) := by
  refine ⟨?_, ?_, ?_⟩
  · rw [detectOutliers_mem,
      zScoreAbove_iff_real _ _ _ (popVariance_nonneg values) hz, Nat.not_lt]
  · intro h
    rw [detectOutliers, if_pos h]
  · intro hvar
    rw [detectOutliers]
    split
    · rfl
    · apply List.filter_eq_nil_iff.mpr
      intro a ha
      simp [zScoreAbove, hvar]

/-- C4 witness: the unit test's data `[2,3,3,4,4,4,5,5,20]` with threshold 2
and the index 8 of value 20. -/
theorem detectOutliers_spec_concrete :
    (0 : ℚ) < 2 ∧
    ((8 ∈ detectOutliers [2, 3, 3, 4, 4, 4, 5, 5, 20] 2 ↔
      2 ≤ ([2, 3, 3, 4, 4, 4, 5, 5, 20] : List ℚ).length ∧
        8 < ([2, 3, 3, 4, 4, 4, 5, 5, 20] : List ℚ).length ∧
        ((2 : ℚ) : ℝ) <
          |((([2, 3, 3, 4, 4, 4, 5, 5, 20] : List ℚ).getD 8 0 -
              popMean [2, 3, 3, 4, 4, 4, 5, 5, 20] : ℚ) : ℝ)| /
            Real.sqrt ((popVariance [2, 3, 3, 4, 4, 4, 5, 5, 20] : ℚ) : ℝ)) ∧
     (([2, 3, 3, 4, 4, 4, 5, 5, 20] : List ℚ).length < 2 →
       detectOutliers [2, 3, 3, 4, 4, 4, 5, 5, 20] 2 = []) ∧
     (popVariance [2, 3, 3, 4, 4, 4, 5, 5, 20] = 0 →
       detectOutliers [2, 3, 3, 4, 4, 4, 5, 5, 20] 2 = [])) :=
  ⟨by norm_num, detectOutliers_spec [2, 3, 3, 4, 4, 4, 5, 5, 20] 2 8 (by norm_num)⟩

end NandaReputation
